import Mathlib

/-!
Shallow embedding of the Element audio engine's GraphNode (GraphNode.h):
per-node parameter state with click-free gain smoothing, enablement state
with deferred coalesced notification, MIDI filter state (key range,
transpose, channel set), per-channel RMS metering, and the typed
capability query over the wrapped audio processor.

Modelling conventions: C++ `int` becomes ℤ, `uint32` becomes ℕ, atomic
`float` values become exact rationals ℚ (JUCE `Atomic<float>` default
constructs to zero; IEEE rounding plays no role in the embedded logic,
which only stores, copies and compares values). `jassert` is modelled as
a fail-fast guard (`Except.error` on violation), matching its debug-build
halt semantics. An unchecked array read (`OwnedArray::getUnchecked`) at an
out-of-bounds index is undefined behaviour and is modelled as `none`.
-/

namespace Spec2Proof

/-- Capability tags for the typed capability query seam
(the `processor<T>()` dynamic_cast pattern of GraphNode.h). -/
inductive Capability where
  | audioPluginInstance
  | graphProcessor
  | otherUnit
deriving DecidableEq

/-- Model of a wrapped audio processing unit: for the capability-query
claims all that matters is which capabilities the unit supports. -/
structure AudioProcessor where
  supports : Capability → Bool

/-- Model of `dynamic_cast<T*> (p)` on a non-null `p`: the unit viewed at
capability `c` when supported, null (`none`) otherwise. -/
def dynamicCast (c : Capability) (p : AudioProcessor) : Option AudioProcessor :=
  if p.supports c then some p else none

/-- Modelled from the spec: the `MidiChannels` class is not under src/;
the spec describes it as a channel membership set over channels 0..127,
stored wholesale by `setChannels` and queried per channel. -/
structure MidiChannels where
  channels : Fin 128 → Bool

/-- Membership query on the channel set. -/
def MidiChannels.isOn (m : MidiChannels) (c : Fin 128) : Bool := m.channels c

/-- Modelled from the spec: `setChannels` stores the given membership set,
replacing the previous one. -/
def MidiChannels.setChannels (_m : MidiChannels) (ch : Fin 128 → Bool) : MidiChannels :=
  { channels := ch }

/-- Model of JUCE `Range<int>`: its constructor stores the start and
normalizes the end to `jmax (start, end)` (JUCE library semantics; the
field `end` is a Lean keyword, so it is named `stop` here). -/
structure IntRange where
  start : ℤ
  stop : ℤ
deriving DecidableEq

/-- JUCE `Range<int>` constructor, `end` normalized to `jmax (start, end)`. -/
def IntRange.make (startValue endValue : ℤ) : IntRange :=
  { start := startValue, stop := max startValue endValue }

/-- JUCE `isPositiveAndBelow (v, limit)` for ints: `0 ≤ v ∧ v < limit`. -/
abbrev isPositiveAndBelow (v limit : ℤ) : Prop := 0 ≤ v ∧ v < limit

/-- Model of `OwnedArray::getUnchecked (i)` followed by `AtomicValue::get`:
defined exactly for indices inside the array; any out-of-bounds unchecked
access (in particular a negative index) is undefined behaviour, `none`. -/
def arrayGetUnchecked (l : List ℚ) (i : ℤ) : Option ℚ :=
  if 0 ≤ i then l.get? i.toNat else none

/-- State of one GraphNode. Fields mirror the private data of GraphNode.h:
`enabled` is the `Atomic<int>` flag (1 = enabled), the four gain fields are
the `Atomic<float>` target/shadow pairs, `inRMS`/`outRMS` are the meter
arrays, and `keyRangeLow`/`keyRangeHigh`/`transposeOffset`/`midiChannels`
are the MIDI filter state. `pendingNotification` models the AsyncUpdater's
coalescing pending flag and `delivered` is the observation log of
enablement events actually delivered on the control thread. -/
structure GraphNode where
  nodeId : ℕ
  audioProcessor : Option AudioProcessor
  isPrepared : Bool
  enabled : ℤ
  latencySamples : ℤ
  gain : ℚ
  lastGain : ℚ
  inputGain : ℚ
  lastInputGain : ℚ
  inRMS : List ℚ
  outRMS : List ℚ
  keyRangeLow : ℤ
  keyRangeHigh : ℤ
  transposeOffset : ℤ
  midiChannels : MidiChannels
  pendingNotification : Bool
  delivered : List Bool

/-- Construction state of `GraphNode (nodeId, proc)`: JUCE `Atomic<float>`
default constructs to 0, `enabled {1}`, `latencySamples = 0`,
`keyRangeLow {0}`, `keyRangeHigh {127}`, `transposeOffset {0}`, empty
meter arrays, no pending notification. The MidiChannels default is not
visible in src/; the claims do not depend on it and it is modelled as all
channels on. -/
def GraphNode.construct (nodeId : ℕ) (proc : Option AudioProcessor) : GraphNode :=
  { nodeId := nodeId
    audioProcessor := proc
    isPrepared := false
    enabled := 1
    latencySamples := 0
    gain := 0
    lastGain := 0
    inputGain := 0
    lastInputGain := 0
    inRMS := []
    outRMS := []
    keyRangeLow := 0
    keyRangeHigh := 127
    transposeOffset := 0
    midiChannels := { channels := fun _ => true }
    pendingNotification := false
    delivered := [] }

/-- A base node freshly constructed with no wrapped processing unit. -/
def initialNode : GraphNode := GraphNode.construct 0 none

/-- Source: `AudioProcessor* getAudioProcessor() const noexcept`. -/
def GraphNode.getAudioProcessor (s : GraphNode) : Option AudioProcessor :=
  s.audioProcessor

/-- Source: `template<class T> T* processor() const noexcept
\x7b return dynamic_cast<T*> (getAudioProcessor()); \x7d` — a dynamic_cast of a
null pointer is null. -/
def GraphNode.processor (c : Capability) (s : GraphNode) : Option AudioProcessor :=
  match s.getAudioProcessor with
  | none => none
  | some p => dynamicCast c p

/-- Source: `getAudioPluginInstance` returns
`processor<AudioPluginInstance>()`. -/
def GraphNode.getAudioPluginInstance (s : GraphNode) : Option AudioProcessor :=
  s.processor Capability.audioPluginInstance

/-- Source: `int getLatencySamples() const`. -/
def GraphNode.getLatencySamples (s : GraphNode) : ℤ := s.latencySamples

/-- Source: `void setLatencySamples (int latency)
\x7b if (latencySamples != latency) latencySamples = latency; \x7d`.
The Bool of the result records whether the store executed. -/
def GraphNode.setLatencySamples (latency : ℤ) (s : GraphNode) : GraphNode × Bool :=
  if s.latencySamples ≠ latency then ({ s with latencySamples := latency }, true)
  else (s, false)

/-- Modelled from the spec: the body of `GraphNode::setGain` is in
GraphNode.cpp, which is not under src/; per the spec it is an atomic store
of the target gain. -/
def GraphNode.setGain (f : ℚ) (s : GraphNode) : GraphNode := { s with gain := f }

/-- Modelled from the spec: the body of `GraphNode::setInputGain` is in
GraphNode.cpp, which is not under src/; per the spec it is an atomic store
of the target input gain. -/
def GraphNode.setInputGain (f : ℚ) (s : GraphNode) : GraphNode :=
  { s with inputGain := f }

/-- Source getters for the gain targets and shadows. -/
def GraphNode.getGain (s : GraphNode) : ℚ := s.gain

/-- Source: `float getInputGain() const`. -/
def GraphNode.getInputGain (s : GraphNode) : ℚ := s.inputGain

/-- Source: `float getLastGain() const`. -/
def GraphNode.getLastGain (s : GraphNode) : ℚ := s.lastGain

/-- Source: `float getLastInputGain() const`. -/
def GraphNode.getLastInputGain (s : GraphNode) : ℚ := s.lastInputGain

/-- Source: `updateGain()` — `if (lastGain.get() != gain.get()) lastGain =
gain;` for the gain pair. -/
def GraphNode.updateGainStep (s : GraphNode) : GraphNode :=
  if s.lastGain ≠ s.gain then { s with lastGain := s.gain } else s

/-- Source: `updateGain()` — `if (lastInputGain.get() != inputGain.get())
lastInputGain = inputGain;` for the input-gain pair. -/
def GraphNode.updateInputGainStep (s : GraphNode) : GraphNode :=
  if s.lastInputGain ≠ s.inputGain then { s with lastInputGain := s.inputGain }
  else s

/-- Source: `inline void updateGain() noexcept`, the two conditional
shadow snaps in sequence. -/
def GraphNode.updateGain (s : GraphNode) : GraphNode :=
  s.updateGainStep.updateInputGainStep

/-- Source: `bool isEnabled() const \x7b return enabled.get() == 1; \x7d`. -/
def GraphNode.isEnabled (s : GraphNode) : Bool := s.enabled == 1

/-- Modelled from the spec: the body of `GraphNode::setEnabled` is in
GraphNode.cpp, which is not under src/; per the spec it updates the atomic
flag only when the requested state differs from the current one, and then
schedules a coalesced asynchronous notification (the AsyncUpdater's
pending flag; setting it while already pending is a no-op). -/
def GraphNode.setEnabled (shouldBeEnabled : Bool) (s : GraphNode) : GraphNode :=
  if shouldBeEnabled ≠ s.isEnabled then
    { s with enabled := if shouldBeEnabled then 1 else 0
             pendingNotification := true }
  else s

/-- Modelled from the spec: the control-thread event-loop step that drains
the AsyncUpdater (`EnablementUpdater::handleAsyncUpdate`, whose body is in
GraphNode.cpp, not under src/): if a notification is pending it is
cleared and exactly one enablement event is delivered, carrying the
node whose current state subscribers then observe. -/
def GraphNode.drainNotifications (s : GraphNode) : GraphNode :=
  if s.pendingNotification then
    { s with pendingNotification := false
             delivered := s.delivered ++ [s.isEnabled] }
  else s

/-- A sequence of `setEnabled` calls issued before the control thread
next drains pending notifications. -/
def GraphNode.applyEnabledCalls (calls : List Bool) (s : GraphNode) : GraphNode :=
  calls.foldl (fun t b => GraphNode.setEnabled b t) s

/-- Source: `inline void setKeyRange (const int low, const int high)` —
three jasserts (`low ≤ high`, `isPositiveAndBelow (low, 128)`,
`isPositiveAndBelow (high, 128)`) then the two stores. The jasserts are
modelled as one fail-fast guard; on violation the stores never run. -/
def GraphNode.setKeyRange (low high : ℤ) (s : GraphNode) : Except Unit GraphNode :=
  if low ≤ high ∧ isPositiveAndBelow low 128 ∧ isPositiveAndBelow high 128 then
    Except.ok { s with keyRangeLow := low, keyRangeHigh := high }
  else Except.error ()

/-- Source: `inline Range<int> getKeyRange() const` builds
`Range<int> \x7b keyRangeLow.get(), keyRangeHigh.get() \x7d`. -/
def GraphNode.getKeyRange (s : GraphNode) : IntRange :=
  IntRange.make s.keyRangeLow s.keyRangeHigh

/-- Source: `inline void setTransposeOffset (const int value)` —
`jassert (value >= -24 && value <= 24)` then the store, with the jassert
modelled as a fail-fast guard. -/
def GraphNode.setTransposeOffset (value : ℤ) (s : GraphNode) : Except Unit GraphNode :=
  if -24 ≤ value ∧ value ≤ 24 then Except.ok { s with transposeOffset := value }
  else Except.error ()

/-- Source: `inline int getTransposeOffset() const`. -/
def GraphNode.getTransposeOffset (s : GraphNode) : ℤ := s.transposeOffset

/-- Source: `inline void setMidiChannels (const BigInteger& ch)` — under
the property lock, `midiChannels.setChannels (ch)`. -/
def GraphNode.setMidiChannels (ch : Fin 128 → Bool) (s : GraphNode) : GraphNode :=
  { s with midiChannels := s.midiChannels.setChannels ch }

/-- Source: `inline const MidiChannels& getMidiChannels() const`. -/
def GraphNode.getMidiChannels (s : GraphNode) : MidiChannels := s.midiChannels

/-- Source: `float getInputRMS (int chan) const \x7b return (chan <
inRMS.size()) ? inRMS.getUnchecked (chan)->get() : 0.0f; \x7d`. Only the
upper bound is guarded; a negative `chan` reaches the unchecked access. -/
def GraphNode.getInputRMS (s : GraphNode) (chan : ℤ) : Option ℚ :=
  if chan < (s.inRMS.length : ℤ) then arrayGetUnchecked s.inRMS chan else some 0

/-- Source: `float getOutputRMS (int chan) const`, same shape as
`getInputRMS` over `outRMS`. -/
def GraphNode.getOutputRMS (s : GraphNode) (chan : ℤ) : Option ℚ :=
  if chan < (s.outRMS.length : ℤ) then arrayGetUnchecked s.outRMS chan else some 0

/-- Modelled from the spec: the body of `GraphNode::setInputRMS` is in
GraphNode.cpp, not under src/; per the spec it is an atomic store at the
given channel index if in range, else a silent no-op. -/
def GraphNode.setInputRMS (chan : ℤ) (val : ℚ) (s : GraphNode) : GraphNode :=
  if 0 ≤ chan ∧ chan < (s.inRMS.length : ℤ) then
    { s with inRMS := s.inRMS.set chan.toNat val }
  else s

/-- Modelled from the spec: `GraphNode::setOutputRMS`, as `setInputRMS`
over the output meters. -/
def GraphNode.setOutputRMS (chan : ℤ) (val : ℚ) (s : GraphNode) : GraphNode :=
  if 0 ≤ chan ∧ chan < (s.outRMS.length : ℤ) then
    { s with outRMS := s.outRMS.set chan.toNat val }
  else s

/-- Modelled from the spec: `prepare` allocates per-channel metering
storage sized to the node's port counts, freshly initialized (0.0). Only
the metering effect is modelled; it is what makes states with non-empty
meter arrays reachable. -/
def GraphNode.prepareMeters (numIns numOuts : ℕ) (s : GraphNode) : GraphNode :=
  { s with isPrepared := true
           inRMS := List.replicate numIns 0
           outRMS := List.replicate numOuts 0 }

/-- Modelled from the spec: `unprepare` releases the metering storage. -/
def GraphNode.unprepareMeters (s : GraphNode) : GraphNode :=
  { s with isPrepared := false, inRMS := [], outRMS := [] }

/-- Reachable node states: any constructed node, closed under every
modelled mutator (assertion-guarded mutators contribute only their
successful outcomes, since a failed jassert halts instead of mutating). -/
inductive Reachable : GraphNode → Prop where
  | construct (nodeId : ℕ) (proc : Option AudioProcessor) :
      Reachable (GraphNode.construct nodeId proc)
  | setGain {s : GraphNode} (f : ℚ) :
      Reachable s → Reachable (GraphNode.setGain f s)
  | setInputGain {s : GraphNode} (f : ℚ) :
      Reachable s → Reachable (GraphNode.setInputGain f s)
  | updateGain {s : GraphNode} :
      Reachable s → Reachable s.updateGain
  | setEnabled {s : GraphNode} (b : Bool) :
      Reachable s → Reachable (GraphNode.setEnabled b s)
  | drainNotifications {s : GraphNode} :
      Reachable s → Reachable s.drainNotifications
  | setLatencySamples {s : GraphNode} (n : ℤ) :
      Reachable s → Reachable (GraphNode.setLatencySamples n s).1
  | setKeyRange {s t : GraphNode} (low high : ℤ) :
      Reachable s → GraphNode.setKeyRange low high s = Except.ok t → Reachable t
  | setTransposeOffset {s t : GraphNode} (v : ℤ) :
      Reachable s → GraphNode.setTransposeOffset v s = Except.ok t → Reachable t
  | setMidiChannels {s : GraphNode} (ch : Fin 128 → Bool) :
      Reachable s → Reachable (GraphNode.setMidiChannels ch s)
  | setInputRMS {s : GraphNode} (chan : ℤ) (val : ℚ) :
      Reachable s → Reachable (GraphNode.setInputRMS chan val s)
  | setOutputRMS {s : GraphNode} (chan : ℤ) (val : ℚ) :
      Reachable s → Reachable (GraphNode.setOutputRMS chan val s)
  | prepareMeters {s : GraphNode} (numIns numOuts : ℕ) :
      Reachable s → Reachable (s.prepareMeters numIns numOuts)
  | unprepareMeters {s : GraphNode} :
      Reachable s → Reachable s.unprepareMeters

@[simp]
theorem GraphNode.updateGainStep_gain (s : GraphNode) :
    s.updateGainStep.gain = s.gain := by
  unfold GraphNode.updateGainStep; split_ifs <;> rfl

@[simp]
theorem GraphNode.updateGainStep_lastGain (s : GraphNode) :
    s.updateGainStep.lastGain = s.gain := by
  unfold GraphNode.updateGainStep
  split_ifs with h
  · rfl
  · exact not_not.mp h

@[simp]
theorem GraphNode.updateGainStep_inputGain (s : GraphNode) :
    s.updateGainStep.inputGain = s.inputGain := by
  unfold GraphNode.updateGainStep; split_ifs <;> rfl

@[simp]
theorem GraphNode.updateGainStep_lastInputGain (s : GraphNode) :
    s.updateGainStep.lastInputGain = s.lastInputGain := by
  unfold GraphNode.updateGainStep; split_ifs <;> rfl

@[simp]
theorem GraphNode.updateInputGainStep_gain (s : GraphNode) :
    s.updateInputGainStep.gain = s.gain := by
  unfold GraphNode.updateInputGainStep; split_ifs <;> rfl

@[simp]
theorem GraphNode.updateInputGainStep_lastGain (s : GraphNode) :
    s.updateInputGainStep.lastGain = s.lastGain := by
  unfold GraphNode.updateInputGainStep; split_ifs <;> rfl

@[simp]
theorem GraphNode.updateInputGainStep_inputGain (s : GraphNode) :
    s.updateInputGainStep.inputGain = s.inputGain := by
  unfold GraphNode.updateInputGainStep; split_ifs <;> rfl

@[simp]
theorem GraphNode.updateInputGainStep_lastInputGain (s : GraphNode) :
    s.updateInputGainStep.lastInputGain = s.inputGain := by
  unfold GraphNode.updateInputGainStep
  split_ifs with h
  · rfl
  · exact not_not.mp h

/-- C1: after a call to updateGain() the shadow values equal the live
targets — getLastGain = getGain and getLastInputGain = getInputGain — for
every prior node state; in particular setGain x immediately after
construction followed by updateGain makes getLastGain = getGain = x. -/
theorem updateGain_syncs_shadows (s : GraphNode) (x : ℚ) :
    (s.updateGain.getLastGain = s.updateGain.getGain
      ∧ s.updateGain.getLastInputGain = s.updateGain.getInputGain)
    ∧ (GraphNode.setGain x initialNode).updateGain.getLastGain
        = (GraphNode.setGain x initialNode).updateGain.getGain
    ∧ (GraphNode.setGain x initialNode).updateGain.getGain = x := by
  have key : ∀ t : GraphNode, t.updateGain.getLastGain = t.updateGain.getGain
      ∧ t.updateGain.getLastInputGain = t.updateGain.getInputGain
      ∧ t.updateGain.getGain = t.gain := by
    intro t
    unfold GraphNode.updateGain
    simp [GraphNode.getLastGain, GraphNode.getGain, GraphNode.getLastInputGain,
      GraphNode.getInputGain]
  refine ⟨⟨(key s).1, (key s).2.1⟩, (key _).1, ?_⟩
  rw [(key _).2.2]
  rfl

/-- C5: for 0 ≤ low ≤ high ≤ 127, setKeyRange low high succeeds and
getKeyRange then returns exactly the pair (low, high). -/
theorem setKeyRange_roundtrip (s : GraphNode) (low high : ℤ)
    (h0 : 0 ≤ low) (h1 : low ≤ high) (h2 : high ≤ 127) :
    ∃ t, GraphNode.setKeyRange low high s = Except.ok t
      ∧ t.getKeyRange = ⟨low, high⟩ := by
  have hcond : low ≤ high ∧ isPositiveAndBelow low 128 ∧ isPositiveAndBelow high 128 :=
    ⟨h1, ⟨h0, by omega⟩, by omega, by omega⟩
  refine ⟨{ s with keyRangeLow := low, keyRangeHigh := high }, ?_, ?_⟩
  · rw [GraphNode.setKeyRange, if_pos hcond]
  · simp only [GraphNode.getKeyRange, IntRange.make]
    congr 1
    omega

/-- Witness for C5 at a concrete valid range. -/
theorem setKeyRange_roundtrip_witness :
    ∃ t, GraphNode.setKeyRange 10 20 initialNode = Except.ok t
      ∧ t.getKeyRange = ⟨10, 20⟩ :=
  setKeyRange_roundtrip initialNode 10 20 (by decide) (by decide) (by decide)

/-- C6: for -24 ≤ v ≤ 24, setTransposeOffset v succeeds and
getTransposeOffset then returns exactly v. -/
theorem setTransposeOffset_roundtrip (s : GraphNode) (v : ℤ)
    (h1 : -24 ≤ v) (h2 : v ≤ 24) :
    ∃ t, GraphNode.setTransposeOffset v s = Except.ok t
      ∧ t.getTransposeOffset = v := by
  refine ⟨{ s with transposeOffset := v }, ?_, rfl⟩
  rw [GraphNode.setTransposeOffset, if_pos ⟨h1, h2⟩]

/-- Witness for C6 at a concrete valid offset. -/
theorem setTransposeOffset_roundtrip_witness :
    ∃ t, GraphNode.setTransposeOffset (-12) initialNode = Except.ok t
      ∧ t.getTransposeOffset = -12 :=
  setTransposeOffset_roundtrip initialNode (-12) (by decide) (by decide)

/-- C7: setMidiChannels followed by getMidiChannels yields a set with
identical membership for every channel in [0,127]. -/
theorem setMidiChannels_roundtrip (s : GraphNode) (ch : Fin 128 → Bool)
    (c : Fin 128) :
    ((GraphNode.setMidiChannels ch s).getMidiChannels).isOn c = ch c := rfl

/-- C8: setLatencySamples n followed by getLatencySamples returns n, and a
call with the value already stored performs no write (the flag recording
an executed store is false and the state is unchanged). -/
theorem setLatencySamples_roundtrip_no_redundant_write (s : GraphNode) (n : ℤ) :
    (GraphNode.setLatencySamples n s).1.getLatencySamples = n
    ∧ (s.getLatencySamples = n → GraphNode.setLatencySamples n s = (s, false)) := by
  constructor
  · unfold GraphNode.setLatencySamples GraphNode.getLatencySamples
    split_ifs with h
    · rfl
    · exact not_not.mp h
  · intro h
    unfold GraphNode.getLatencySamples at h
    unfold GraphNode.setLatencySamples
    rw [if_neg (by omega)]

/-- Witness for C8: storing the value already present writes nothing. -/
theorem setLatencySamples_roundtrip_no_redundant_write_witness :
    (GraphNode.setLatencySamples 0 initialNode).1.getLatencySamples = 0
    ∧ GraphNode.setLatencySamples 0 initialNode = (initialNode, false) :=
  ⟨(setLatencySamples_roundtrip_no_redundant_write initialNode 0).1,
   (setLatencySamples_roundtrip_no_redundant_write initialNode 0).2 rfl⟩

/-- C3 counterexample: chan = -1 is out of range of the (empty) meter
arrays of a freshly constructed node, yet getInputRMS/getOutputRMS do not
return the defined 0.0 — the guard `chan < size` passes for a negative
chan and the read reaches an unchecked out-of-bounds access (modelled as
none). -/
theorem getRMS_out_of_range_counterexample :
    GraphNode.getInputRMS initialNode (-1) = none
    ∧ GraphNode.getOutputRMS initialNode (-1) = none
    ∧ ¬ GraphNode.getInputRMS initialNode (-1) = some 0
    ∧ ¬ GraphNode.getOutputRMS initialNode (-1) = some 0 := by decide

/-- C3 amended: for every node state and every chan at or beyond the
allocated channel count, getInputRMS and getOutputRMS return 0.0. -/
theorem getRMS_beyond_count_returns_zero (s : GraphNode) (chan : ℤ)
    (hin : (s.inRMS.length : ℤ) ≤ chan) (hout : (s.outRMS.length : ℤ) ≤ chan) :
    s.getInputRMS chan = some 0 ∧ s.getOutputRMS chan = some 0 := by
  constructor
  · rw [GraphNode.getInputRMS, if_neg (by omega)]
  · rw [GraphNode.getOutputRMS, if_neg (by omega)]

/-- Witness for the amended C3 on an unprepared node with no meters. -/
theorem getRMS_beyond_count_returns_zero_witness :
    GraphNode.getInputRMS initialNode 3 = some 0
    ∧ GraphNode.getOutputRMS initialNode 3 = some 0 :=
  getRMS_beyond_count_returns_zero initialNode 3 (by decide) (by decide)

/-- C10: the metering getters guard only the upper bound — for chan ≥ 0
the read is total (the stored value when in bounds, 0.0 when at or beyond
the count), while a negative chan passes the guard and reaches an
unchecked out-of-bounds access (modelled as none). -/
theorem getRMS_guards_only_upper_bound (s : GraphNode) (chan : ℤ) :
    (0 ≤ chan → chan < (s.inRMS.length : ℤ) →
        s.getInputRMS chan = s.inRMS.get? chan.toNat
          ∧ s.inRMS.get? chan.toNat ≠ none)
    ∧ (0 ≤ chan → (s.inRMS.length : ℤ) ≤ chan → s.getInputRMS chan = some 0)
    ∧ (chan < 0 → s.getInputRMS chan = none)
    ∧ (0 ≤ chan → chan < (s.outRMS.length : ℤ) →
        s.getOutputRMS chan = s.outRMS.get? chan.toNat
          ∧ s.outRMS.get? chan.toNat ≠ none)
    ∧ (0 ≤ chan → (s.outRMS.length : ℤ) ≤ chan → s.getOutputRMS chan = some 0)
    ∧ (chan < 0 → s.getOutputRMS chan = none) := by
  refine ⟨fun h0 hlt => ⟨?_, ?_⟩, fun h0 hge => ?_, fun hneg => ?_,
    fun h0 hlt => ⟨?_, ?_⟩, fun h0 hge => ?_, fun hneg => ?_⟩
  · rw [GraphNode.getInputRMS, if_pos hlt, arrayGetUnchecked, if_pos h0]
  · rw [Ne, List.get?_eq_none]
    omega
  · rw [GraphNode.getInputRMS, if_neg (by omega)]
  · rw [GraphNode.getInputRMS, if_pos (by omega), arrayGetUnchecked,
      if_neg (by omega)]
  · rw [GraphNode.getOutputRMS, if_pos hlt, arrayGetUnchecked, if_pos h0]
  · rw [Ne, List.get?_eq_none]
    omega
  · rw [GraphNode.getOutputRMS, if_neg (by omega)]
  · rw [GraphNode.getOutputRMS, if_pos (by omega), arrayGetUnchecked,
      if_neg (by omega)]

/-- Witness for C10 on a prepared node with two meters per side: an
in-count read returns 0.0, and a negative chan reaches the unchecked
access. -/
theorem getRMS_guards_only_upper_bound_witness :
    GraphNode.getInputRMS (GraphNode.prepareMeters 2 2 initialNode) 5 = some 0
    ∧ GraphNode.getInputRMS (GraphNode.prepareMeters 2 2 initialNode) (-1) = none
    ∧ GraphNode.getOutputRMS (GraphNode.prepareMeters 2 2 initialNode) (-1) = none :=
  ⟨(getRMS_guards_only_upper_bound (GraphNode.prepareMeters 2 2 initialNode) 5).2.1
      (by decide) (by decide),
   (getRMS_guards_only_upper_bound (GraphNode.prepareMeters 2 2 initialNode) (-1)).2.2.1
      (by decide),
   (getRMS_guards_only_upper_bound (GraphNode.prepareMeters 2 2 initialNode) (-1)).2.2.2.2.2
      (by decide)⟩

/-- C9: when the node wraps no processing unit every capability query —
processor at any capability, and getAudioPluginInstance — returns null;
and when the wrapped unit does not support the requested capability,
processor returns null. -/
theorem capability_queries_return_null (s : GraphNode) (c : Capability) :
    (s.getAudioProcessor = none →
        s.processor c = none ∧ s.getAudioPluginInstance = none)
    ∧ (∀ p, s.getAudioProcessor = some p → p.supports c = false →
        s.processor c = none) := by
  constructor
  · intro h
    constructor
    · rw [GraphNode.processor, h]
    · rw [GraphNode.getAudioPluginInstance, GraphNode.processor, h]
  · intro p hp hsup
    rw [GraphNode.processor, hp]
    simp [dynamicCast, hsup]

/-- A wrapped processing unit supporting no capability at all. -/
def noCapProcessor : AudioProcessor := { supports := fun _ => false }

/-- A node wrapping a unit with no supported capability. -/
def nodeWithNoCapUnit : GraphNode := GraphNode.construct 1 (some noCapProcessor)

/-- Witness for C9: a fresh base node (null processor) yields null from
every capability query, and a node whose unit lacks the requested
capability yields null from processor. -/
theorem capability_queries_return_null_witness :
    GraphNode.processor Capability.graphProcessor initialNode = none
    ∧ GraphNode.getAudioPluginInstance initialNode = none
    ∧ GraphNode.processor Capability.audioPluginInstance nodeWithNoCapUnit = none :=
  ⟨((capability_queries_return_null initialNode Capability.graphProcessor).1 rfl).1,
   ((capability_queries_return_null initialNode Capability.graphProcessor).1 rfl).2,
   (capability_queries_return_null nodeWithNoCapUnit Capability.audioPluginInstance).2
      noCapProcessor rfl rfl⟩

theorem GraphNode.setEnabled_delivered (b : Bool) (s : GraphNode) :
    (GraphNode.setEnabled b s).delivered = s.delivered := by
  unfold GraphNode.setEnabled; split_ifs <;> rfl

theorem GraphNode.applyEnabledCalls_delivered (calls : List Bool) (s : GraphNode) :
    (GraphNode.applyEnabledCalls calls s).delivered = s.delivered := by
  induction calls generalizing s with
  | nil => rfl
  | cons b bs ih =>
      rw [GraphNode.applyEnabledCalls, List.foldl_cons,
        ← GraphNode.applyEnabledCalls, ih, GraphNode.setEnabled_delivered]

/-- C2: setEnabled true on an already-enabled node schedules no
notification (the call is a no-op); no setEnabled call — and hence no
sequence of calls — ever delivers an event synchronously on the calling
thread; and after the control thread drains the coalesced pending flag,
the delivery log has grown by at most one event, which reflects the final
enabled state after the whole sequence. -/
theorem setEnabled_coalesced_async (s : GraphNode) (calls : List Bool) :
    (s.isEnabled = true → GraphNode.setEnabled true s = s)
    ∧ (∀ b, (GraphNode.setEnabled b s).delivered = s.delivered)
    ∧ (GraphNode.applyEnabledCalls calls s).delivered = s.delivered
    ∧ ((GraphNode.drainNotifications
          (GraphNode.applyEnabledCalls calls s)).delivered = s.delivered
       ∨ (GraphNode.drainNotifications
            (GraphNode.applyEnabledCalls calls s)).delivered
          = s.delivered
              ++ [(GraphNode.applyEnabledCalls calls s).isEnabled]) := by
  refine ⟨fun h => ?_, fun b => GraphNode.setEnabled_delivered b s,
    GraphNode.applyEnabledCalls_delivered calls s, ?_⟩
  · simp [GraphNode.setEnabled, h]
  · unfold GraphNode.drainNotifications
    split_ifs with h
    · right
      show (GraphNode.applyEnabledCalls calls s).delivered ++ _ = _
      rw [GraphNode.applyEnabledCalls_delivered]
    · left
      exact GraphNode.applyEnabledCalls_delivered calls s

/-- Witness for C2: a fresh node is enabled, so setEnabled true changes
nothing and schedules nothing; a disable-then-enable burst delivers at
most one event on drain. -/
theorem setEnabled_coalesced_async_witness :
    GraphNode.setEnabled true initialNode = initialNode
    ∧ ((GraphNode.drainNotifications
          (GraphNode.applyEnabledCalls [false, true] initialNode)).delivered
          = initialNode.delivered
       ∨ (GraphNode.drainNotifications
            (GraphNode.applyEnabledCalls [false, true] initialNode)).delivered
          = initialNode.delivered
              ++ [(GraphNode.applyEnabledCalls [false, true] initialNode).isEnabled]) :=
  ⟨(setEnabled_coalesced_async initialNode []).1 rfl,
   (setEnabled_coalesced_async initialNode [false, true]).2.2.2⟩

@[simp]
theorem GraphNode.updateGainStep_keyRangeLow (s : GraphNode) :
    s.updateGainStep.keyRangeLow = s.keyRangeLow := by
  unfold GraphNode.updateGainStep; split_ifs <;> rfl

@[simp]
theorem GraphNode.updateGainStep_keyRangeHigh (s : GraphNode) :
    s.updateGainStep.keyRangeHigh = s.keyRangeHigh := by
  unfold GraphNode.updateGainStep; split_ifs <;> rfl

@[simp]
theorem GraphNode.updateInputGainStep_keyRangeLow (s : GraphNode) :
    s.updateInputGainStep.keyRangeLow = s.keyRangeLow := by
  unfold GraphNode.updateInputGainStep; split_ifs <;> rfl

@[simp]
theorem GraphNode.updateInputGainStep_keyRangeHigh (s : GraphNode) :
    s.updateInputGainStep.keyRangeHigh = s.keyRangeHigh := by
  unfold GraphNode.updateInputGainStep; split_ifs <;> rfl

theorem Reachable.keyRange_le {s : GraphNode} (h : Reachable s) :
    s.keyRangeLow ≤ s.keyRangeHigh := by
  induction h with
  | construct nid p => norm_num [GraphNode.construct]
  | setGain f hr ih => simpa [GraphNode.setGain] using ih
  | setInputGain f hr ih => simpa [GraphNode.setInputGain] using ih
  | updateGain hr ih => simpa [GraphNode.updateGain] using ih
  | setEnabled b hr ih =>
      unfold GraphNode.setEnabled; split_ifs <;> simpa using ih
  | drainNotifications hr ih =>
      unfold GraphNode.drainNotifications; split_ifs <;> simpa using ih
  | setLatencySamples n hr ih =>
      unfold GraphNode.setLatencySamples; split_ifs <;> simpa using ih
  | setKeyRange low high hr heq ih =>
      rw [GraphNode.setKeyRange] at heq
      split_ifs at heq with hc
      have ht : _ = _ := heq
      injection ht with h2
      rw [← h2]
      exact hc.1
  | setTransposeOffset v hr heq ih =>
      rw [GraphNode.setTransposeOffset] at heq
      split_ifs at heq with hc
      injection heq with h2
      rw [← h2]
      simpa using ih
  | setMidiChannels ch hr ih => simpa [GraphNode.setMidiChannels] using ih
  | setInputRMS chan val hr ih =>
      unfold GraphNode.setInputRMS; split_ifs <;> simpa using ih
  | setOutputRMS chan val hr ih =>
      unfold GraphNode.setOutputRMS; split_ifs <;> simpa using ih
  | prepareMeters numIns numOuts hr ih =>
      simpa [GraphNode.prepareMeters] using ih
  | unprepareMeters hr ih => simpa [GraphNode.unprepareMeters] using ih

/-- C4: keyRangeLow ≤ keyRangeHigh holds in every reachable node state —
it holds at construction (defaults 0 and 127) and is preserved by every
modelled operation — and a violating setKeyRange call (low > high or a
bound outside [0,127]) fails fast on its assertion instead of silently
establishing an inverted range. -/
theorem keyRange_invariant_fail_fast (s : GraphNode) (low high : ℤ)
    (nodeId : ℕ) (proc : Option AudioProcessor) :
    ((GraphNode.construct nodeId proc).keyRangeLow = 0
       ∧ (GraphNode.construct nodeId proc).keyRangeHigh = 127)
    ∧ (Reachable s → s.keyRangeLow ≤ s.keyRangeHigh)
    ∧ (¬ (low ≤ high ∧ isPositiveAndBelow low 128 ∧ isPositiveAndBelow high 128) →
        GraphNode.setKeyRange low high s = Except.error ()) := by
  refine ⟨⟨rfl, rfl⟩, fun h => h.keyRange_le, fun hviol => ?_⟩
  rw [GraphNode.setKeyRange, if_neg hviol]

/-- Witness for C4 at a fresh node and a violating call (60 > 50). -/
theorem keyRange_invariant_fail_fast_witness :
    initialNode.keyRangeLow ≤ initialNode.keyRangeHigh
    ∧ GraphNode.setKeyRange 60 50 initialNode = Except.error () :=
  ⟨(keyRange_invariant_fail_fast initialNode 60 50 0 none).2.1
      (Reachable.construct 0 none),
   (keyRange_invariant_fail_fast initialNode 60 50 0 none).2.2 (by decide)⟩

end Spec2Proof
